import Mathlib

/-!
# Verification of the pycryptobot decision engine and API key ring

Shallow embedding of the stateful trading tick `executeJob` from
`src/pycryptobot/pycryptobot.py` and of the keyring wrappers from
`src/pycryptobot/api_key_ring.py`, together with theorems settling the
specification claims about them.

The embedding follows the source line by line:

* prices, thresholds and the OBV percent change are rationals (the source
  uses Python floats; no claim depends on rounding error),
* the module-level globals mutated by `executeJob` become the fields of
  `BotState`, threaded explicitly through one tick,
* the per-tick market data (length of the retrieved frame, candle identity
  string, ticker price, tail low/close, indicator flags) becomes `TickInput`,
* the configured `sell_lower_pcnt` / `sell_upper_pcnt` become `BotConfig`,
* the tick is modelled on the live-price path (`is_sim == 0`): the sim path
  sets `price` to the tail close directly and is otherwise identical.

Fields of the source that no claim touches and that only feed the printed
simulation summary (`buy_sum`, `sell_sum`, the candlestick pattern flags,
the display-only crossover flags `macdgtsignalco` / `macdltsignalco` and
`goldencross`) are omitted; they do not influence any modelled field.
-/

namespace PCB

/-- The per-tick output `action` of the source: the strings
"BUY", "SELL", "WAIT". -/
inductive Action
  | buy
  | sell
  | wait
deriving DecidableEq, Repr

/-- The values of the source global `last_action`: the strings
"" (initial), "BUY", "SELL". -/
inductive LastAction
  | none
  | buy
  | sell
deriving DecidableEq, Repr

/-- The values of the source global `buy_state`: the strings
"" (initial), "NO_BUY", "NORMAL". -/
inductive BuyState
  | empty
  | noBuy
  | normal
deriving DecidableEq, Repr

/-- The module-level globals of `pycryptobot.py` that `executeJob` reads and
writes (lines 226-239 initialise them; the `global` statement at line 279
lists them).  `buy_sum` and `sell_sum` only feed the printed simulation
summary and are omitted. -/
structure BotState where
  action : Action
  last_action : LastAction
  last_buy : ℚ
  last_df_index : String
  buy_state : BuyState
  iterations : ℕ
  x_since_buy : ℕ
  x_since_sell : ℕ
  buy_count : ℕ
  sell_count : ℕ
  failsafe : Bool
deriving DecidableEq, Repr

/-- The configured failsafe thresholds `sell_lower_pcnt` (negative,
stop-loss) and `sell_upper_pcnt` (positive, take-profit). -/
structure BotConfig where
  sell_lower_pcnt : ℚ
  sell_upper_pcnt : ℚ
deriving DecidableEq, Repr

/-- One tick of market data as `executeJob` consumes it on the live path:
the length of the retrieved data frame, the identity string of the tail
candle (`current_df_index`), the ticker price from `api.getTicker`, the low
and close of the tail candle, and the indicator snapshot read from the
analysed frame (lines 322-332). -/
structure TickInput where
  dataLen : ℕ
  index : String
  ticker : ℚ
  low : ℚ
  close : ℚ
  ema12gtema26 : Bool
  ema12gtema26co : Bool
  ema12ltema26 : Bool
  ema12ltema26co : Bool
  macdgtsignal : Bool
  macdltsignal : Bool
  obv_pc : ℚ
deriving DecidableEq, Repr

/-- Price resolution, lines 315-318: the ticker price is replaced by the
tail close when it is below the candle low or exactly 0. -/
def resolvePrice (ticker low close : ℚ) : ℚ :=
  if ticker < low ∨ ticker = 0 then close else ticker

/-- The raw buy condition of lines 350-352 (without the `last_action`
gate). -/
abbrev rawBuyCond (inp : TickInput) (s : BotState) : Prop :=
  (inp.ema12gtema26co = true ∧ inp.macdgtsignal = true ∧ 1 < inp.obv_pc)
  ∨ (inp.ema12gtema26 = true ∧ inp.macdgtsignal = true ∧ 1 < inp.obv_pc
      ∧ 0 < s.x_since_buy ∧ s.x_since_buy ≤ 2)

/-- The raw sell condition of lines 357-360 (without the `last_action`
gate); `and` binds tighter than `or` in the source. -/
abbrev rawSellCond (inp : TickInput) (s : BotState) : Prop :=
  (inp.ema12ltema26co = true ∧ inp.macdltsignal = true)
  ∨ (inp.ema12ltema26 = true ∧ inp.macdltsignal = true
      ∧ 0 < s.x_since_sell ∧ s.x_since_sell ≤ 2)

/-- The full buy signal of lines 350-353: raw condition and
`last_action != "BUY"`. -/
abbrev buySignal (inp : TickInput) (s : BotState) : Prop :=
  rawBuyCond inp s ∧ s.last_action ≠ LastAction.buy

/-- The full sell signal of lines 356-361: raw condition and
`last_action not in ["", "SELL"]`. -/
abbrev sellSignal (inp : TickInput) (s : BotState) : Prop :=
  rawSellCond inp s
  ∧ ¬(s.last_action = LastAction.none ∨ s.last_action = LastAction.sell)

/-- Lines 349-366: the signal rule assigns `action`; the sell branch also
clears `failsafe`. -/
def signalPhase (inp : TickInput) (s : BotState) : BotState :=
  if buySignal inp s then
    { s with action := Action.buy }
  else if sellSignal inp s then
    { s with action := Action.sell, failsafe := false }
  else
    { s with action := Action.wait }

/-- Whether the failsafe override of lines 368-387 fires on this tick:
`last_buy > 0 and last_action == "BUY"` and the percent change since the
buy is below `sell_lower_pcnt` or above `sell_upper_pcnt`.  When it fires
the source logs a "Failsafe Triggered" warning. -/
abbrev failsafeCheck (cfg : BotConfig) (price : ℚ) (s : BotState) : Prop :=
  (0 < s.last_buy ∧ s.last_action = LastAction.buy)
  ∧ ((price / s.last_buy - 1) * 100 < cfg.sell_lower_pcnt
      ∨ cfg.sell_upper_pcnt < (price / s.last_buy - 1) * 100)

/-- Lines 368-387: the failsafe override.  Each of the two threshold
branches forces `action = "SELL"` and sets `failsafe = True`; the source
also assigns `last_action = "BUY"` there, a no-op since the enclosing
guard already requires `last_action == "BUY"`. -/
def failsafePhase (cfg : BotConfig) (price : ℚ) (s : BotState) : BotState :=
  if 0 < s.last_buy ∧ s.last_action = LastAction.buy then
    let change := (price / s.last_buy - 1) * 100
    let s1 :=
      if change < cfg.sell_lower_pcnt then
        { s with failsafe := true, action := Action.sell }
      else s
    if cfg.sell_upper_pcnt < change then
      { s1 with failsafe := true, action := Action.sell }
    else s1
  else s

/-- Lines 684-696: streak bookkeeping.  The bullish branch only increments
`x_since_buy` when the `buy_state` gate passes; the bearish branch
increments `x_since_sell`, sets `buy_state = "NORMAL"` and clears
`failsafe`. -/
def streakPhase (inp : TickInput) (s : BotState) : BotState :=
  if inp.ema12gtema26 = true ∧ s.failsafe = false then
    let bs := if s.buy_state = BuyState.empty then BuyState.noBuy else s.buy_state
    if bs ≠ BuyState.noBuy ∨ bs = BuyState.normal then
      { s with buy_state := bs, x_since_buy := s.x_since_buy + 1 }
    else
      { s with buy_state := bs }
  else if inp.ema12ltema26 = true then
    { s with
        x_since_sell := s.x_since_sell + 1,
        buy_state := BuyState.normal,
        failsafe := false }
  else s

/-- Lines 699-705 and 803-807: on a buy, increment `buy_count`, reset
`x_since_sell` and record `last_buy = price`; on a sell, increment
`sell_count` and reset `x_since_buy`.  (Order placement and display are
I/O and not modelled.) -/
def actionPhase (price : ℚ) (s : BotState) : BotState :=
  match s.action with
  | Action.buy =>
      { s with buy_count := s.buy_count + 1, x_since_sell := 0, last_buy := price }
  | Action.sell =>
      { s with sell_count := s.sell_count + 1, x_since_buy := 0 }
  | Action.wait => s

/-- Lines 953-955: `last_action` is overwritten exactly when the finalized
action is "BUY" or "SELL". -/
def lastActionPhase (s : BotState) : BotState :=
  if s.action = Action.buy then
    { s with last_action := LastAction.buy }
  else if s.action = Action.sell then
    { s with last_action := LastAction.sell }
  else s

/-- Lines 349-387: the decision part of a tick, run on every call (also on
a re-polled candle): the signal rule followed by the failsafe override. -/
def decidePhase (cfg : BotConfig) (inp : TickInput) (price : ℚ) (s : BotState) : BotState :=
  failsafePhase cfg price (signalPhase inp s)

/-- Lines 684-955: the bookkeeping run only when the candle index is new:
streaks, buy/sell bookkeeping, and the `last_action` update. -/
def bookkeepPhase (inp : TickInput) (price : ℚ) (s : BotState) : BotState :=
  lastActionPhase (actionPhase price (streakPhase inp s))

/-- What the driver observes from one tick: the finalized action and
whether a failsafe warning was logged (lines 376-378 and 385-387). -/
structure TickOutput where
  action : Action
  failsafeTriggered : Bool
deriving DecidableEq, Repr

/-- Result of one `executeJob` call: either a completed tick or the
length-check failure of lines 292-298 (which logs an error and schedules a
retry).  Both carry the global state as left by the call. -/
inductive TickResult
  | ok (out : TickOutput) (s : BotState)
  | insufficientData (s : BotState)
deriving DecidableEq, Repr

/-- The global state as left by the call. -/
def TickResult.state : TickResult → BotState
  | TickResult.ok _ s => s
  | TickResult.insufficientData s => s

/-- Whether a failsafe warning was logged by the call. -/
def TickResult.triggered : TickResult → Bool
  | TickResult.ok o _ => o.failsafeTriggered
  | TickResult.insufficientData _ => false

/-- Whether the call completed a tick (did not fail the length check). -/
def TickResult.isOk : TickResult → Bool
  | TickResult.ok _ _ => true
  | TickResult.insufficientData _ => false

/-- One call of `executeJob` (lines 277-1009) on the live-price path:

1. line 282: `iterations` is incremented, before anything else;
2. lines 292-298: if the frame length is not 300 the call fails (it logs
   an error and schedules a retry; no further global is touched);
3. lines 315-318: the price is resolved from the ticker and the tail candle;
4. lines 349-387: the signal rule and the failsafe override set `action`
   and `failsafe` — these run on every call, also on a re-polled candle;
5. lines 392-957, guarded by `last_df_index != current_df_index`: streak
   bookkeeping, buy/sell bookkeeping, the `last_action` update, and
   finally `last_df_index = current_df_index`;
6. lines 978-991, the re-poll branch: `iterations` is decremented back and
   nothing else of the guarded block runs. -/
def executeJob (cfg : BotConfig) (inp : TickInput) (s0 : BotState) : TickResult :=
  let s := { s0 with iterations := s0.iterations + 1 }
  if inp.dataLen ≠ 300 then
    TickResult.insufficientData s
  else
    let price := resolvePrice inp.ticker inp.low inp.close
    let s1 := decidePhase cfg inp price s
    let fsT : Bool := decide (failsafeCheck cfg price s)
    if s1.last_df_index ≠ inp.index then
      let s4 := bookkeepPhase inp price s1
      TickResult.ok ⟨s4.action, fsT⟩ { s4 with last_df_index := inp.index }
    else
      TickResult.ok ⟨s1.action, fsT⟩ { s1 with iterations := s1.iterations - 1 }

/-! ## The API key ring, `src/pycryptobot/api_key_ring.py`

The `keyring` library is modelled as a map from user names to optionally
stored passwords; the service name is the fixed `_SERVICE_NAME =
"pycryptobot"` throughout, so it is left implicit. -/

/-- The keyring backend: what `get_password("pycryptobot", user)` would
return for each user. -/
def Keyring : Type := String → Option String

/-- `keyring.get_password` for the fixed service name. -/
def get_password (kr : Keyring) (user : String) : Option String := kr user

/-- `keyring.set_password` for the fixed service name. -/
def set_password (kr : Keyring) (user value : String) : Keyring :=
  fun u => if u = user then Option.some value else kr u

/-- `_get_pw`, lines 51-55: raise "Missing key." when the stored value is
falsy (missing or the empty string), return it otherwise. -/
def get_pw (kr : Keyring) (user : String) : Except String String :=
  match get_password kr user with
  | Option.none => Except.error "Missing key."
  | Option.some pw =>
      if pw = "" then Except.error "Missing key." else Except.ok pw

/-- `_set_pw`, lines 58-61: store the value, then raise "Failure to set
keys." when reading it back gives a falsy value; the store itself has
already happened either way. -/
def set_pw (kr : Keyring) (user value : String) : Except String Keyring :=
  let kr1 := set_password kr user value
  match get_password kr1 user with
  | Option.none => Except.error "Failure to set keys."
  | Option.some pw =>
      if pw = "" then Except.error "Failure to set keys." else Except.ok kr1

/-- An `ApiKey`, lines 9-11: a named credential set. -/
structure ApiKey where
  name : String

/-- The three credential fields of an `ApiKey`. -/
inductive CredField
  | key
  | secret
  | passphrase
deriving DecidableEq, Repr

/-- The keyring user suffix of each field (`_key_user`, `_secret_user`,
`_passphrase_user`, lines 37-47). -/
def CredField.fieldSuffix : CredField → String
  | CredField.key => "-key"
  | CredField.secret => "-secret"
  | CredField.passphrase => "-passphrase"

/-- The keyring user name of a credential field, e.g. `f"{self.name}-key"`. -/
def ApiKey.credUser (a : ApiKey) (f : CredField) : String :=
  a.name ++ f.fieldSuffix

/-- The `key` / `secret` / `passphrase` property getters, lines 17-33:
each is `_get_pw` of the corresponding user. -/
def ApiKey.getCred (a : ApiKey) (kr : Keyring) (f : CredField) : Except String String :=
  get_pw kr (a.credUser f)

/-- `replace_stored_key` / `replace_stored_secret` /
`replace_stored_passphrase`, lines 21-36: each is `_set_pw` of the
corresponding user. -/
def ApiKey.replaceCred (a : ApiKey) (kr : Keyring) (f : CredField)
    (value : String) : Except String Keyring :=
  set_pw kr (a.credUser f) value

/-! ## Frame lemmas for the phases

Each phase only writes the fields listed in its definition; these lemmas
record the fields it leaves untouched, and how it sets the ones it
writes. -/

theorem signalPhase_last_action (inp : TickInput) (s : BotState) :
    (signalPhase inp s).last_action = s.last_action := by
  unfold signalPhase
  split_ifs <;> rfl

theorem signalPhase_last_buy (inp : TickInput) (s : BotState) :
    (signalPhase inp s).last_buy = s.last_buy := by
  unfold signalPhase
  split_ifs <;> rfl

theorem signalPhase_last_df_index (inp : TickInput) (s : BotState) :
    (signalPhase inp s).last_df_index = s.last_df_index := by
  unfold signalPhase
  split_ifs <;> rfl

theorem signalPhase_iterations (inp : TickInput) (s : BotState) :
    (signalPhase inp s).iterations = s.iterations := by
  unfold signalPhase
  split_ifs <;> rfl

theorem signalPhase_x_since_buy (inp : TickInput) (s : BotState) :
    (signalPhase inp s).x_since_buy = s.x_since_buy := by
  unfold signalPhase
  split_ifs <;> rfl

theorem signalPhase_x_since_sell (inp : TickInput) (s : BotState) :
    (signalPhase inp s).x_since_sell = s.x_since_sell := by
  unfold signalPhase
  split_ifs <;> rfl

theorem signalPhase_buy_count (inp : TickInput) (s : BotState) :
    (signalPhase inp s).buy_count = s.buy_count := by
  unfold signalPhase
  split_ifs <;> rfl

theorem signalPhase_sell_count (inp : TickInput) (s : BotState) :
    (signalPhase inp s).sell_count = s.sell_count := by
  unfold signalPhase
  split_ifs <;> rfl

theorem signalPhase_buy_state (inp : TickInput) (s : BotState) :
    (signalPhase inp s).buy_state = s.buy_state := by
  unfold signalPhase
  split_ifs <;> rfl

theorem signalPhase_action_of_buy (inp : TickInput) (s : BotState)
    (h : buySignal inp s) : (signalPhase inp s).action = Action.buy := by
  unfold signalPhase
  rw [if_pos h]

theorem signalPhase_action_ne_sell (inp : TickInput) (s : BotState)
    (h : ¬ sellSignal inp s) : (signalPhase inp s).action ≠ Action.sell := by
  unfold signalPhase
  split_ifs <;> simp

theorem signalPhase_action_ne_buy (inp : TickInput) (s : BotState)
    (h : ¬ buySignal inp s) : (signalPhase inp s).action ≠ Action.buy := by
  unfold signalPhase
  rw [if_neg h]
  split_ifs <;> simp

theorem signalPhase_action_wait (inp : TickInput) (s : BotState)
    (hb : ¬ buySignal inp s) (hs : ¬ sellSignal inp s) :
    (signalPhase inp s).action = Action.wait := by
  unfold signalPhase
  rw [if_neg hb, if_neg hs]

theorem failsafePhase_last_action (cfg : BotConfig) (price : ℚ) (s : BotState) :
    (failsafePhase cfg price s).last_action = s.last_action := by
  unfold failsafePhase
  dsimp only
  split_ifs <;> rfl

theorem failsafePhase_last_buy (cfg : BotConfig) (price : ℚ) (s : BotState) :
    (failsafePhase cfg price s).last_buy = s.last_buy := by
  unfold failsafePhase
  dsimp only
  split_ifs <;> rfl

theorem failsafePhase_last_df_index (cfg : BotConfig) (price : ℚ) (s : BotState) :
    (failsafePhase cfg price s).last_df_index = s.last_df_index := by
  unfold failsafePhase
  dsimp only
  split_ifs <;> rfl

theorem failsafePhase_iterations (cfg : BotConfig) (price : ℚ) (s : BotState) :
    (failsafePhase cfg price s).iterations = s.iterations := by
  unfold failsafePhase
  dsimp only
  split_ifs <;> rfl

theorem failsafePhase_x_since_buy (cfg : BotConfig) (price : ℚ) (s : BotState) :
    (failsafePhase cfg price s).x_since_buy = s.x_since_buy := by
  unfold failsafePhase
  dsimp only
  split_ifs <;> rfl

theorem failsafePhase_x_since_sell (cfg : BotConfig) (price : ℚ) (s : BotState) :
    (failsafePhase cfg price s).x_since_sell = s.x_since_sell := by
  unfold failsafePhase
  dsimp only
  split_ifs <;> rfl

theorem failsafePhase_buy_count (cfg : BotConfig) (price : ℚ) (s : BotState) :
    (failsafePhase cfg price s).buy_count = s.buy_count := by
  unfold failsafePhase
  dsimp only
  split_ifs <;> rfl

theorem failsafePhase_sell_count (cfg : BotConfig) (price : ℚ) (s : BotState) :
    (failsafePhase cfg price s).sell_count = s.sell_count := by
  unfold failsafePhase
  dsimp only
  split_ifs <;> rfl

theorem failsafePhase_buy_state (cfg : BotConfig) (price : ℚ) (s : BotState) :
    (failsafePhase cfg price s).buy_state = s.buy_state := by
  unfold failsafePhase
  dsimp only
  split_ifs <;> rfl

/-- When the failsafe condition holds, the override forces a sell and sets
the failsafe flag. -/
theorem failsafePhase_of_check (cfg : BotConfig) (price : ℚ) (s : BotState)
    (h : failsafeCheck cfg price s) :
    (failsafePhase cfg price s).action = Action.sell
    ∧ (failsafePhase cfg price s).failsafe = true := by
  obtain ⟨hgate, hth⟩ := h
  unfold failsafePhase
  dsimp only
  rw [if_pos hgate]
  rcases hth with hlo | hhi
  · rw [if_pos hlo]
    split_ifs <;> exact ⟨rfl, rfl⟩
  · rw [if_pos hhi]
    split_ifs <;> exact ⟨rfl, rfl⟩

/-- When the failsafe condition does not hold, the override is the
identity. -/
theorem failsafePhase_of_not_check (cfg : BotConfig) (price : ℚ) (s : BotState)
    (h : ¬ failsafeCheck cfg price s) :
    failsafePhase cfg price s = s := by
  unfold failsafePhase
  dsimp only
  by_cases hgate : 0 < s.last_buy ∧ s.last_action = LastAction.buy
  · rw [if_pos hgate]
    have hth : ¬ ((price / s.last_buy - 1) * 100 < cfg.sell_lower_pcnt
        ∨ cfg.sell_upper_pcnt < (price / s.last_buy - 1) * 100) := by
      intro hc
      exact h ⟨hgate, hc⟩
    push_neg at hth
    rw [if_neg (by push_neg; exact hth.2), if_neg (by push_neg; exact hth.1)]
  · rw [if_neg hgate]

/-- The override never produces anything but the incoming action or a
forced sell. -/
theorem failsafePhase_action_cases (cfg : BotConfig) (price : ℚ) (s : BotState) :
    (failsafePhase cfg price s).action = s.action
    ∨ (failsafePhase cfg price s).action = Action.sell := by
  unfold failsafePhase
  dsimp only
  split_ifs <;> simp

theorem streakPhase_action (inp : TickInput) (s : BotState) :
    (streakPhase inp s).action = s.action := by
  unfold streakPhase
  dsimp only
  split_ifs <;> rfl

theorem streakPhase_last_action (inp : TickInput) (s : BotState) :
    (streakPhase inp s).last_action = s.last_action := by
  unfold streakPhase
  dsimp only
  split_ifs <;> rfl

theorem streakPhase_last_buy (inp : TickInput) (s : BotState) :
    (streakPhase inp s).last_buy = s.last_buy := by
  unfold streakPhase
  dsimp only
  split_ifs <;> rfl

theorem streakPhase_last_df_index (inp : TickInput) (s : BotState) :
    (streakPhase inp s).last_df_index = s.last_df_index := by
  unfold streakPhase
  dsimp only
  split_ifs <;> rfl

theorem streakPhase_iterations (inp : TickInput) (s : BotState) :
    (streakPhase inp s).iterations = s.iterations := by
  unfold streakPhase
  dsimp only
  split_ifs <;> rfl

theorem streakPhase_buy_count (inp : TickInput) (s : BotState) :
    (streakPhase inp s).buy_count = s.buy_count := by
  unfold streakPhase
  dsimp only
  split_ifs <;> rfl

theorem streakPhase_sell_count (inp : TickInput) (s : BotState) :
    (streakPhase inp s).sell_count = s.sell_count := by
  unfold streakPhase
  dsimp only
  split_ifs <;> rfl

theorem actionPhase_action (price : ℚ) (s : BotState) :
    (actionPhase price s).action = s.action := by
  obtain ⟨a, la, lb, ldi, bs, it, xb, xs, bc, sc, fs⟩ := s
  cases a <;> rfl

theorem actionPhase_last_action (price : ℚ) (s : BotState) :
    (actionPhase price s).last_action = s.last_action := by
  obtain ⟨a, la, lb, ldi, bs, it, xb, xs, bc, sc, fs⟩ := s
  cases a <;> rfl

theorem actionPhase_last_df_index (price : ℚ) (s : BotState) :
    (actionPhase price s).last_df_index = s.last_df_index := by
  obtain ⟨a, la, lb, ldi, bs, it, xb, xs, bc, sc, fs⟩ := s
  cases a <;> rfl

theorem actionPhase_iterations (price : ℚ) (s : BotState) :
    (actionPhase price s).iterations = s.iterations := by
  obtain ⟨a, la, lb, ldi, bs, it, xb, xs, bc, sc, fs⟩ := s
  cases a <;> rfl

theorem actionPhase_of_buy (price : ℚ) (s : BotState) (h : s.action = Action.buy) :
    (actionPhase price s).x_since_sell = 0
    ∧ (actionPhase price s).last_buy = price
    ∧ (actionPhase price s).x_since_buy = s.x_since_buy := by
  unfold actionPhase
  rw [h]
  exact ⟨rfl, rfl, rfl⟩

theorem actionPhase_of_sell (price : ℚ) (s : BotState) (h : s.action = Action.sell) :
    (actionPhase price s).x_since_buy = 0
    ∧ (actionPhase price s).x_since_sell = s.x_since_sell
    ∧ (actionPhase price s).last_buy = s.last_buy := by
  unfold actionPhase
  rw [h]
  exact ⟨rfl, rfl, rfl⟩

theorem actionPhase_of_wait (price : ℚ) (s : BotState) (h : s.action = Action.wait) :
    actionPhase price s = s := by
  unfold actionPhase
  rw [h]

theorem lastActionPhase_action (s : BotState) :
    (lastActionPhase s).action = s.action := by
  unfold lastActionPhase
  split_ifs <;> rfl

theorem lastActionPhase_last_buy (s : BotState) :
    (lastActionPhase s).last_buy = s.last_buy := by
  unfold lastActionPhase
  split_ifs <;> rfl

theorem lastActionPhase_last_df_index (s : BotState) :
    (lastActionPhase s).last_df_index = s.last_df_index := by
  unfold lastActionPhase
  split_ifs <;> rfl

theorem lastActionPhase_iterations (s : BotState) :
    (lastActionPhase s).iterations = s.iterations := by
  unfold lastActionPhase
  split_ifs <;> rfl

theorem lastActionPhase_x_since_buy (s : BotState) :
    (lastActionPhase s).x_since_buy = s.x_since_buy := by
  unfold lastActionPhase
  split_ifs <;> rfl

theorem lastActionPhase_x_since_sell (s : BotState) :
    (lastActionPhase s).x_since_sell = s.x_since_sell := by
  unfold lastActionPhase
  split_ifs <;> rfl

theorem lastActionPhase_of_buy (s : BotState) (h : s.action = Action.buy) :
    (lastActionPhase s).last_action = LastAction.buy := by
  unfold lastActionPhase
  rw [if_pos h]

theorem lastActionPhase_of_sell (s : BotState) (h : s.action = Action.sell) :
    (lastActionPhase s).last_action = LastAction.sell := by
  unfold lastActionPhase
  rw [if_neg (by rw [h]; simp), if_pos h]

theorem lastActionPhase_of_wait (s : BotState) (h : s.action = Action.wait) :
    lastActionPhase s = s := by
  unfold lastActionPhase
  rw [if_neg (by rw [h]; simp), if_neg (by rw [h]; simp)]

/-! ## Shape lemmas for one `executeJob` call -/

/-- On a frame of length 300 and a new candle index, one call is the
decide phase followed by the bookkeeping phase, with `last_df_index`
updated last. -/
theorem executeJob_eq_new (cfg : BotConfig) (inp : TickInput) (s : BotState)
    (h300 : inp.dataLen = 300) (hnew : s.last_df_index ≠ inp.index) :
    executeJob cfg inp s =
      TickResult.ok
        ⟨(bookkeepPhase inp (resolvePrice inp.ticker inp.low inp.close)
            (decidePhase cfg inp (resolvePrice inp.ticker inp.low inp.close)
              { s with iterations := s.iterations + 1 })).action,
          decide (failsafeCheck cfg (resolvePrice inp.ticker inp.low inp.close)
            { s with iterations := s.iterations + 1 })⟩
        { bookkeepPhase inp (resolvePrice inp.ticker inp.low inp.close)
            (decidePhase cfg inp (resolvePrice inp.ticker inp.low inp.close)
              { s with iterations := s.iterations + 1 }) with
            last_df_index := inp.index } := by
  unfold executeJob
  rw [if_neg (by simp [h300])]
  rw [if_pos (by
    unfold decidePhase
    rw [failsafePhase_last_df_index, signalPhase_last_df_index]
    exact hnew)]

/-- On a frame of length 300 and a re-polled candle index, one call only
runs the decide phase and restores the iteration counter. -/
theorem executeJob_eq_dup (cfg : BotConfig) (inp : TickInput) (s : BotState)
    (h300 : inp.dataLen = 300) (hdup : s.last_df_index = inp.index) :
    executeJob cfg inp s =
      TickResult.ok
        ⟨(decidePhase cfg inp (resolvePrice inp.ticker inp.low inp.close)
            { s with iterations := s.iterations + 1 }).action,
          decide (failsafeCheck cfg (resolvePrice inp.ticker inp.low inp.close)
            { s with iterations := s.iterations + 1 })⟩
        { decidePhase cfg inp (resolvePrice inp.ticker inp.low inp.close)
            { s with iterations := s.iterations + 1 } with
            iterations := s.iterations } := by
  unfold executeJob
  rw [if_neg (by simp [h300])]
  rw [if_neg (by
    unfold decidePhase
    rw [failsafePhase_last_df_index, signalPhase_last_df_index]
    simp [hdup])]
  have hit : (decidePhase cfg inp (resolvePrice inp.ticker inp.low inp.close)
      { s with iterations := s.iterations + 1 }).iterations = s.iterations + 1 := by
    unfold decidePhase
    rw [failsafePhase_iterations, signalPhase_iterations]
  rw [hit, Nat.add_sub_cancel]

/-- The length-check failure path, lines 292-298: nothing but the already
incremented iteration counter has been touched. -/
theorem executeJob_eq_insufficient (cfg : BotConfig) (inp : TickInput) (s : BotState)
    (hlen : inp.dataLen ≠ 300) :
    executeJob cfg inp s =
      TickResult.insufficientData { s with iterations := s.iterations + 1 } := by
  unfold executeJob
  rw [if_pos hlen]

/-- On a 300-row frame, the finalized action of a call is the action left
by the decide phase, on a new candle as on a re-poll. -/
theorem executeJob_state_action (cfg : BotConfig) (inp : TickInput) (s : BotState)
    (h300 : inp.dataLen = 300) :
    (executeJob cfg inp s).state.action =
      (decidePhase cfg inp (resolvePrice inp.ticker inp.low inp.close)
        { s with iterations := s.iterations + 1 }).action := by
  by_cases hnew : s.last_df_index ≠ inp.index
  · rw [executeJob_eq_new cfg inp s h300 hnew]
    show (bookkeepPhase _ _ _).action = _
    unfold bookkeepPhase
    rw [lastActionPhase_action, actionPhase_action, streakPhase_action]
  · rw [executeJob_eq_dup cfg inp s h300 (by push_neg at hnew; exact hnew)]
    rfl

/-! ## Frame lemmas for the composed decide phase -/

theorem decidePhase_last_action (cfg : BotConfig) (inp : TickInput) (price : ℚ)
    (s : BotState) : (decidePhase cfg inp price s).last_action = s.last_action := by
  unfold decidePhase
  rw [failsafePhase_last_action, signalPhase_last_action]

theorem decidePhase_last_buy (cfg : BotConfig) (inp : TickInput) (price : ℚ)
    (s : BotState) : (decidePhase cfg inp price s).last_buy = s.last_buy := by
  unfold decidePhase
  rw [failsafePhase_last_buy, signalPhase_last_buy]

theorem decidePhase_last_df_index (cfg : BotConfig) (inp : TickInput) (price : ℚ)
    (s : BotState) : (decidePhase cfg inp price s).last_df_index = s.last_df_index := by
  unfold decidePhase
  rw [failsafePhase_last_df_index, signalPhase_last_df_index]

theorem decidePhase_iterations (cfg : BotConfig) (inp : TickInput) (price : ℚ)
    (s : BotState) : (decidePhase cfg inp price s).iterations = s.iterations := by
  unfold decidePhase
  rw [failsafePhase_iterations, signalPhase_iterations]

theorem decidePhase_x_since_buy (cfg : BotConfig) (inp : TickInput) (price : ℚ)
    (s : BotState) : (decidePhase cfg inp price s).x_since_buy = s.x_since_buy := by
  unfold decidePhase
  rw [failsafePhase_x_since_buy, signalPhase_x_since_buy]

theorem decidePhase_x_since_sell (cfg : BotConfig) (inp : TickInput) (price : ℚ)
    (s : BotState) : (decidePhase cfg inp price s).x_since_sell = s.x_since_sell := by
  unfold decidePhase
  rw [failsafePhase_x_since_sell, signalPhase_x_since_sell]

theorem decidePhase_buy_count (cfg : BotConfig) (inp : TickInput) (price : ℚ)
    (s : BotState) : (decidePhase cfg inp price s).buy_count = s.buy_count := by
  unfold decidePhase
  rw [failsafePhase_buy_count, signalPhase_buy_count]

theorem decidePhase_sell_count (cfg : BotConfig) (inp : TickInput) (price : ℚ)
    (s : BotState) : (decidePhase cfg inp price s).sell_count = s.sell_count := by
  unfold decidePhase
  rw [failsafePhase_sell_count, signalPhase_sell_count]

/-- On a 300-row frame, whether the failsafe warning was logged is exactly
the failsafe condition on the pre-decision state. -/
theorem executeJob_triggered (cfg : BotConfig) (inp : TickInput) (s : BotState)
    (h300 : inp.dataLen = 300) :
    (executeJob cfg inp s).triggered =
      decide (failsafeCheck cfg (resolvePrice inp.ticker inp.low inp.close)
        { s with iterations := s.iterations + 1 }) := by
  by_cases hnew : s.last_df_index ≠ inp.index
  · rw [executeJob_eq_new cfg inp s h300 hnew]
    rfl
  · rw [executeJob_eq_dup cfg inp s h300 (not_ne_iff.mp hnew)]
    rfl

/-- On a 300-row frame the call always completes a tick. -/
theorem executeJob_isOk (cfg : BotConfig) (inp : TickInput) (s : BotState)
    (h300 : inp.dataLen = 300) :
    (executeJob cfg inp s).isOk = true := by
  by_cases hnew : s.last_df_index ≠ inp.index
  · rw [executeJob_eq_new cfg inp s h300 hnew]
    rfl
  · rw [executeJob_eq_dup cfg inp s h300 (not_ne_iff.mp hnew)]
    rfl

/-! ## Lemmas for the composed bookkeeping phase -/

theorem bookkeepPhase_action (inp : TickInput) (price : ℚ) (s : BotState) :
    (bookkeepPhase inp price s).action = s.action := by
  unfold bookkeepPhase
  rw [lastActionPhase_action, actionPhase_action, streakPhase_action]

theorem bookkeepPhase_of_buy (inp : TickInput) (price : ℚ) (s : BotState)
    (h : s.action = Action.buy) :
    (bookkeepPhase inp price s).x_since_sell = 0
    ∧ (bookkeepPhase inp price s).last_buy = price
    ∧ (bookkeepPhase inp price s).last_action = LastAction.buy := by
  unfold bookkeepPhase
  have h2 : (streakPhase inp s).action = Action.buy := by
    rw [streakPhase_action]
    exact h
  have h3 : (actionPhase price (streakPhase inp s)).action = Action.buy := by
    rw [actionPhase_action]
    exact h2
  obtain ⟨ha, hb, _⟩ := actionPhase_of_buy price (streakPhase inp s) h2
  refine ⟨?_, ?_, lastActionPhase_of_buy _ h3⟩
  · rw [lastActionPhase_x_since_sell]
    exact ha
  · rw [lastActionPhase_last_buy]
    exact hb

theorem bookkeepPhase_of_sell (inp : TickInput) (price : ℚ) (s : BotState)
    (h : s.action = Action.sell) :
    (bookkeepPhase inp price s).x_since_buy = 0
    ∧ (bookkeepPhase inp price s).last_action = LastAction.sell := by
  unfold bookkeepPhase
  have h2 : (streakPhase inp s).action = Action.sell := by
    rw [streakPhase_action]
    exact h
  have h3 : (actionPhase price (streakPhase inp s)).action = Action.sell := by
    rw [actionPhase_action]
    exact h2
  obtain ⟨ha, _, _⟩ := actionPhase_of_sell price (streakPhase inp s) h2
  refine ⟨?_, lastActionPhase_of_sell _ h3⟩
  rw [lastActionPhase_x_since_buy]
  exact ha

theorem bookkeepPhase_of_wait (inp : TickInput) (price : ℚ) (s : BotState)
    (h : s.action = Action.wait) :
    (bookkeepPhase inp price s).last_action = s.last_action := by
  unfold bookkeepPhase
  have h2 : (streakPhase inp s).action = Action.wait := by
    rw [streakPhase_action]
    exact h
  rw [actionPhase_of_wait price _ h2, lastActionPhase_of_wait _ h2,
    streakPhase_last_action]

/-! ## The claims -/

/-- C1: for every decision state with `last_action = BUY` and
`last_buy > 0`, a tick (a call processing a new candle index) whose
percent change `(price/last_buy - 1) * 100` lies below `sell_lower_pcnt`
or above `sell_upper_pcnt` returns Action SELL with the failsafe
triggered, regardless of the indicator flags (the raw signal rule of the
same tick), and this forced sell becomes the new `last_action`. -/
theorem C1_failsafe_dominance (cfg : BotConfig) (inp : TickInput) (s : BotState)
    (h300 : inp.dataLen = 300) (hnew : s.last_df_index ≠ inp.index)
    (hla : s.last_action = LastAction.buy) (hlb : 0 < s.last_buy)
    (hth : (resolvePrice inp.ticker inp.low inp.close / s.last_buy - 1) * 100
        < cfg.sell_lower_pcnt
      ∨ cfg.sell_upper_pcnt
        < (resolvePrice inp.ticker inp.low inp.close / s.last_buy - 1) * 100) :
    (executeJob cfg inp s).state.action = Action.sell
    ∧ (executeJob cfg inp s).triggered = true
    ∧ (executeJob cfg inp s).state.last_action = LastAction.sell := by
  have hcheck : failsafeCheck cfg (resolvePrice inp.ticker inp.low inp.close)
      { s with iterations := s.iterations + 1 } := ⟨⟨hlb, hla⟩, hth⟩
  have hcheck2 : failsafeCheck cfg (resolvePrice inp.ticker inp.low inp.close)
      (signalPhase inp { s with iterations := s.iterations + 1 }) := by
    simp only [failsafeCheck, signalPhase_last_buy, signalPhase_last_action]
    exact ⟨⟨hlb, hla⟩, hth⟩
  have hact : (decidePhase cfg inp (resolvePrice inp.ticker inp.low inp.close)
      { s with iterations := s.iterations + 1 }).action = Action.sell :=
    (failsafePhase_of_check cfg _ _ hcheck2).1
  refine ⟨?_, ?_, ?_⟩
  · rw [executeJob_state_action cfg inp s h300]
    exact hact
  · rw [executeJob_triggered cfg inp s h300]
    exact decide_eq_true hcheck
  · rw [executeJob_eq_new cfg inp s h300 hnew]
    show (bookkeepPhase _ _ _).last_action = LastAction.sell
    unfold bookkeepPhase
    exact lastActionPhase_of_sell _
      (by rw [actionPhase_action, streakPhase_action]; exact hact)

/-- C1, witness: a concrete stop-loss tick (bought at 100, price now 50,
lower threshold -5%) with indicator flags that would give WAIT. -/
theorem C1_failsafe_dominance_witness :
    (executeJob ⟨-5, 5⟩
      { dataLen := 300, index := "t1", ticker := 50, low := 1, close := 9,
        ema12gtema26 := false, ema12gtema26co := false, ema12ltema26 := false,
        ema12ltema26co := false, macdgtsignal := false, macdltsignal := false,
        obv_pc := 0 }
      { action := Action.wait, last_action := LastAction.buy, last_buy := 100,
        last_df_index := "t0", buy_state := BuyState.empty, iterations := 0,
        x_since_buy := 0, x_since_sell := 0, buy_count := 0, sell_count := 0,
        failsafe := false }).state.action = Action.sell
    ∧ (executeJob ⟨-5, 5⟩
      { dataLen := 300, index := "t1", ticker := 50, low := 1, close := 9,
        ema12gtema26 := false, ema12gtema26co := false, ema12ltema26 := false,
        ema12ltema26co := false, macdgtsignal := false, macdltsignal := false,
        obv_pc := 0 }
      { action := Action.wait, last_action := LastAction.buy, last_buy := 100,
        last_df_index := "t0", buy_state := BuyState.empty, iterations := 0,
        x_since_buy := 0, x_since_sell := 0, buy_count := 0, sell_count := 0,
        failsafe := false }).triggered = true
    ∧ (executeJob ⟨-5, 5⟩
      { dataLen := 300, index := "t1", ticker := 50, low := 1, close := 9,
        ema12gtema26 := false, ema12gtema26co := false, ema12ltema26 := false,
        ema12ltema26co := false, macdgtsignal := false, macdltsignal := false,
        obv_pc := 0 }
      { action := Action.wait, last_action := LastAction.buy, last_buy := 100,
        last_df_index := "t0", buy_state := BuyState.empty, iterations := 0,
        x_since_buy := 0, x_since_sell := 0, buy_count := 0, sell_count := 0,
        failsafe := false }).state.last_action = LastAction.sell :=
  C1_failsafe_dominance _ _ _ rfl (by decide) rfl (by norm_num)
    (by norm_num [resolvePrice])

/-- C2 counterexample: a call with a 299-row frame increments the
iteration counter, so the decision state is not left completely
unmodified by the failed call. -/
theorem C2_counterexample :
    (executeJob ⟨-5, 5⟩
      { dataLen := 299, index := "t1", ticker := 10, low := 1, close := 9,
        ema12gtema26 := false, ema12gtema26co := false, ema12ltema26 := false,
        ema12ltema26co := false, macdgtsignal := false, macdltsignal := false,
        obv_pc := 0 }
      { action := Action.wait, last_action := LastAction.none, last_buy := 0,
        last_df_index := "t0", buy_state := BuyState.empty, iterations := 0,
        x_since_buy := 0, x_since_sell := 0, buy_count := 0, sell_count := 0,
        failsafe := false }).state.iterations = 1
    ∧ (executeJob ⟨-5, 5⟩
      { dataLen := 299, index := "t1", ticker := 10, low := 1, close := 9,
        ema12gtema26 := false, ema12gtema26co := false, ema12ltema26 := false,
        ema12ltema26co := false, macdgtsignal := false, macdltsignal := false,
        obv_pc := 0 }
      { action := Action.wait, last_action := LastAction.none, last_buy := 0,
        last_df_index := "t0", buy_state := BuyState.empty, iterations := 0,
        x_since_buy := 0, x_since_sell := 0, buy_count := 0, sell_count := 0,
        failsafe := false }).isOk = false := by
  decide

/-- C2 (amended): on a frame whose length is not 300 the call is rejected
as insufficient data and every decision-state field except the iteration
counter is unchanged; the iteration counter is incremented by the failed
call (line 282 runs before the length check of line 292 and the failure
path never decrements it back). -/
theorem C2_insufficient_data_state (cfg : BotConfig) (inp : TickInput)
    (s : BotState) (hlen : inp.dataLen ≠ 300) :
    executeJob cfg inp s =
      TickResult.insufficientData { s with iterations := s.iterations + 1 } :=
  executeJob_eq_insufficient cfg inp s hlen

/-- C2 (amended), witness: the concrete 299-row call. -/
theorem C2_insufficient_data_state_witness :
    executeJob ⟨-5, 5⟩
      { dataLen := 299, index := "t1", ticker := 10, low := 1, close := 9,
        ema12gtema26 := false, ema12gtema26co := false, ema12ltema26 := false,
        ema12ltema26co := false, macdgtsignal := false, macdltsignal := false,
        obv_pc := 0 }
      { action := Action.wait, last_action := LastAction.none, last_buy := 0,
        last_df_index := "t0", buy_state := BuyState.empty, iterations := 7,
        x_since_buy := 2, x_since_sell := 3, buy_count := 1, sell_count := 1,
        failsafe := false } =
      TickResult.insufficientData
        { action := Action.wait, last_action := LastAction.none, last_buy := 0,
          last_df_index := "t0", buy_state := BuyState.empty, iterations := 8,
          x_since_buy := 2, x_since_sell := 3, buy_count := 1, sell_count := 1,
          failsafe := false } :=
  C2_insufficient_data_state _ _ _ (by decide)

/-- C6: a fresh state whose `last_action` is NONE (the empty string of the
source; no buy has ever been recorded in it) never produces Action SELL:
the raw sell rule requires `last_action not in ["", "SELL"]` and the
failsafe override requires `last_action == "BUY"`. -/
theorem C6_fresh_state_never_sells (cfg : BotConfig) (inp : TickInput)
    (s : BotState) (h300 : inp.dataLen = 300)
    (hla : s.last_action = LastAction.none) :
    (executeJob cfg inp s).state.action ≠ Action.sell := by
  rw [executeJob_state_action cfg inp s h300]
  unfold decidePhase
  have hla1 : ({ s with iterations := s.iterations + 1 } : BotState).last_action
      = LastAction.none := hla
  have hnofs : ¬ failsafeCheck cfg (resolvePrice inp.ticker inp.low inp.close)
      (signalPhase inp { s with iterations := s.iterations + 1 }) := by
    intro hc
    have h2 := hc.1.2
    rw [signalPhase_last_action] at h2
    rw [hla1] at h2
    exact absurd h2 (by simp)
  rw [failsafePhase_of_not_check _ _ _ hnofs]
  apply signalPhase_action_ne_sell
  intro hsig
  exact hsig.2 (Or.inl hla1)

/-- C6, witness: a fresh state with a snapshot whose sell conditions all
hold still does not sell. -/
theorem C6_fresh_state_never_sells_witness :
    (executeJob ⟨-5, 5⟩
      { dataLen := 300, index := "t1", ticker := 10, low := 1, close := 9,
        ema12gtema26 := false, ema12gtema26co := false, ema12ltema26 := true,
        ema12ltema26co := true, macdgtsignal := false, macdltsignal := true,
        obv_pc := 0 }
      { action := Action.wait, last_action := LastAction.none, last_buy := 0,
        last_df_index := "t0", buy_state := BuyState.empty, iterations := 0,
        x_since_buy := 0, x_since_sell := 1, buy_count := 0, sell_count := 0,
        failsafe := false }).state.action ≠ Action.sell :=
  C6_fresh_state_never_sells _ _ _ rfl rfl

/-- C3 counterexample: the source recomputes `action` on every call, also
on a re-poll of an already processed candle (lines 349-387 run before the
de-duplication check of line 392).  After a first call that buys, a second
call with the same candle identity and the same snapshot computes WAIT,
not the BUY decided on the first call — the claim that the second call
produces the identical Action fails. -/
theorem C3_counterexample :
    (executeJob ⟨-5, 5⟩
      { dataLen := 300, index := "t1", ticker := 10, low := 1, close := 9,
        ema12gtema26 := true, ema12gtema26co := true, ema12ltema26 := false,
        ema12ltema26co := false, macdgtsignal := true, macdltsignal := false,
        obv_pc := 2 }
      { action := Action.wait, last_action := LastAction.none, last_buy := 0,
        last_df_index := "t0", buy_state := BuyState.empty, iterations := 0,
        x_since_buy := 0, x_since_sell := 0, buy_count := 0, sell_count := 0,
        failsafe := false }).state.action = Action.buy
    ∧ (executeJob ⟨-5, 5⟩
      { dataLen := 300, index := "t1", ticker := 10, low := 1, close := 9,
        ema12gtema26 := true, ema12gtema26co := true, ema12ltema26 := false,
        ema12ltema26co := false, macdgtsignal := true, macdltsignal := false,
        obv_pc := 2 }
      (executeJob ⟨-5, 5⟩
        { dataLen := 300, index := "t1", ticker := 10, low := 1, close := 9,
          ema12gtema26 := true, ema12gtema26co := true, ema12ltema26 := false,
          ema12ltema26co := false, macdgtsignal := true, macdltsignal := false,
          obv_pc := 2 }
        { action := Action.wait, last_action := LastAction.none, last_buy := 0,
          last_df_index := "t0", buy_state := BuyState.empty, iterations := 0,
          x_since_buy := 0, x_since_sell := 0, buy_count := 0, sell_count := 0,
          failsafe := false }).state).state.action = Action.wait := by
  norm_num [executeJob, decidePhase, bookkeepPhase, signalPhase, failsafePhase,
    streakPhase, actionPhase, lastActionPhase, resolvePrice, TickResult.state,
    buySignal, sellSignal, rawBuyCond, rawSellCond, failsafeCheck]
  simp
  norm_num

/-- C3 (amended): a second call with a candle identity equal to
`last_df_index` recomputes the Action from the updated state (which may
differ from the first call's Action), but performs no bookkeeping: the
streaks, the buy/sell counts, `last_action`, `last_buy`, the iteration
counter and `last_df_index` are all unchanged, so polling faster than the
candle interval never double-counts actions or streaks. -/
theorem C3_dedup_no_double_count (cfg : BotConfig) (inp : TickInput)
    (s : BotState) (h300 : inp.dataLen = 300)
    (hdup : s.last_df_index = inp.index) :
    (executeJob cfg inp s).state.x_since_buy = s.x_since_buy
    ∧ (executeJob cfg inp s).state.x_since_sell = s.x_since_sell
    ∧ (executeJob cfg inp s).state.buy_count = s.buy_count
    ∧ (executeJob cfg inp s).state.sell_count = s.sell_count
    ∧ (executeJob cfg inp s).state.last_action = s.last_action
    ∧ (executeJob cfg inp s).state.last_buy = s.last_buy
    ∧ (executeJob cfg inp s).state.iterations = s.iterations
    ∧ (executeJob cfg inp s).state.last_df_index = s.last_df_index := by
  rw [executeJob_eq_dup cfg inp s h300 hdup]
  refine ⟨?_, ?_, ?_, ?_, ?_, ?_, ?_, ?_⟩ <;>
    simp [TickResult.state, decidePhase_x_since_buy, decidePhase_x_since_sell,
      decidePhase_buy_count, decidePhase_sell_count, decidePhase_last_action,
      decidePhase_last_buy, decidePhase_last_df_index]

/-- C3 (amended), witness: the re-polled call after the concrete buy tick
of the counterexample. -/
theorem C3_dedup_no_double_count_witness :
    (executeJob ⟨-5, 5⟩
      { dataLen := 300, index := "t1", ticker := 10, low := 1, close := 9,
        ema12gtema26 := true, ema12gtema26co := true, ema12ltema26 := false,
        ema12ltema26co := false, macdgtsignal := true, macdltsignal := false,
        obv_pc := 2 }
      { action := Action.buy, last_action := LastAction.buy, last_buy := 10,
        last_df_index := "t1", buy_state := BuyState.noBuy, iterations := 1,
        x_since_buy := 0, x_since_sell := 0, buy_count := 1, sell_count := 0,
        failsafe := false }).state.x_since_buy = 0
    ∧ (executeJob ⟨-5, 5⟩
      { dataLen := 300, index := "t1", ticker := 10, low := 1, close := 9,
        ema12gtema26 := true, ema12gtema26co := true, ema12ltema26 := false,
        ema12ltema26co := false, macdgtsignal := true, macdltsignal := false,
        obv_pc := 2 }
      { action := Action.buy, last_action := LastAction.buy, last_buy := 10,
        last_df_index := "t1", buy_state := BuyState.noBuy, iterations := 1,
        x_since_buy := 0, x_since_sell := 0, buy_count := 1, sell_count := 0,
        failsafe := false }).state.buy_count = 1 := by
  have h := C3_dedup_no_double_count ⟨-5, 5⟩
    { dataLen := 300, index := "t1", ticker := 10, low := 1, close := 9,
      ema12gtema26 := true, ema12gtema26co := true, ema12ltema26 := false,
      ema12ltema26co := false, macdgtsignal := true, macdltsignal := false,
      obv_pc := 2 }
    { action := Action.buy, last_action := LastAction.buy, last_buy := 10,
      last_df_index := "t1", buy_state := BuyState.noBuy, iterations := 1,
      x_since_buy := 0, x_since_sell := 0, buy_count := 1, sell_count := 0,
      failsafe := false } rfl rfl
  exact ⟨h.1, h.2.2.1⟩

/-- C4 counterexample: from `last_action = BUY` with an open position
bought at 100 and the price at 50, a tick whose snapshot satisfies the
raw BUY rule yields the failsafe SELL, not the WAIT the claim
requires. -/
theorem C4_counterexample :
    rawBuyCond
      { dataLen := 300, index := "t1", ticker := 50, low := 1, close := 9,
        ema12gtema26 := true, ema12gtema26co := true, ema12ltema26 := false,
        ema12ltema26co := false, macdgtsignal := true, macdltsignal := false,
        obv_pc := 2 }
      { action := Action.wait, last_action := LastAction.buy, last_buy := 100,
        last_df_index := "t0", buy_state := BuyState.empty, iterations := 0,
        x_since_buy := 0, x_since_sell := 0, buy_count := 0, sell_count := 0,
        failsafe := false }
    ∧ (executeJob ⟨-5, 5⟩
      { dataLen := 300, index := "t1", ticker := 50, low := 1, close := 9,
        ema12gtema26 := true, ema12gtema26co := true, ema12ltema26 := false,
        ema12ltema26co := false, macdgtsignal := true, macdltsignal := false,
        obv_pc := 2 }
      { action := Action.wait, last_action := LastAction.buy, last_buy := 100,
        last_df_index := "t0", buy_state := BuyState.empty, iterations := 0,
        x_since_buy := 0, x_since_sell := 0, buy_count := 0, sell_count := 0,
        failsafe := false }).state.action = Action.sell := by
  constructor
  · norm_num [rawBuyCond]
  · norm_num [executeJob, decidePhase, bookkeepPhase, signalPhase, failsafePhase,
      streakPhase, actionPhase, lastActionPhase, resolvePrice, TickResult.state,
      buySignal, sellSignal, rawBuyCond, rawSellCond, failsafeCheck]
    decide

/-- C4 (amended): from `last_action = BUY` the engine never emits BUY
again before an intervening sell; a tick whose snapshot satisfies the raw
BUY rule yields WAIT provided the snapshot is coherent (MACD is not also
below Signal) and the failsafe does not fire on that tick — otherwise it
yields the failsafe SELL, still never BUY. -/
theorem C4_no_double_buy (cfg : BotConfig) (inp : TickInput) (s : BotState)
    (h300 : inp.dataLen = 300) (hla : s.last_action = LastAction.buy) :
    (executeJob cfg inp s).state.action ≠ Action.buy
    ∧ (inp.macdltsignal = false →
        ¬ failsafeCheck cfg (resolvePrice inp.ticker inp.low inp.close) s →
        (executeJob cfg inp s).state.action = Action.wait) := by
  rw [executeJob_state_action cfg inp s h300]
  have hla1 : ({ s with iterations := s.iterations + 1 } : BotState).last_action
      = LastAction.buy := hla
  have hnobuy : ¬ buySignal inp { s with iterations := s.iterations + 1 } := by
    intro h
    exact h.2 hla1
  constructor
  · unfold decidePhase
    rcases failsafePhase_action_cases cfg (resolvePrice inp.ticker inp.low inp.close)
        (signalPhase inp { s with iterations := s.iterations + 1 }) with h | h
    · rw [h]
      exact signalPhase_action_ne_buy _ _ hnobuy
    · rw [h]
      simp
  · intro hmacd hnofs
    have hnosell : ¬ sellSignal inp { s with iterations := s.iterations + 1 } := by
      intro h
      rcases h.1 with hc | hc
      · rw [hmacd] at hc
        exact absurd hc.2 (by simp)
      · rw [hmacd] at hc
        exact absurd hc.2.1 (by simp)
    have hnofs1 : ¬ failsafeCheck cfg (resolvePrice inp.ticker inp.low inp.close)
        (signalPhase inp { s with iterations := s.iterations + 1 }) := by
      simp only [failsafeCheck, signalPhase_last_buy, signalPhase_last_action]
      exact hnofs
    unfold decidePhase
    rw [failsafePhase_of_not_check _ _ _ hnofs1]
    exact signalPhase_action_wait _ _ hnobuy hnosell

/-- C4 (amended), witness: from `last_action = BUY` and a BUY-rule
snapshot with no failsafe, the tick yields WAIT and in particular not
BUY. -/
theorem C4_no_double_buy_witness :
    (executeJob ⟨-5, 5⟩
      { dataLen := 300, index := "t1", ticker := 10, low := 1, close := 9,
        ema12gtema26 := true, ema12gtema26co := true, ema12ltema26 := false,
        ema12ltema26co := false, macdgtsignal := true, macdltsignal := false,
        obv_pc := 2 }
      { action := Action.wait, last_action := LastAction.buy, last_buy := 10,
        last_df_index := "t0", buy_state := BuyState.empty, iterations := 0,
        x_since_buy := 0, x_since_sell := 0, buy_count := 0, sell_count := 0,
        failsafe := false }).state.action ≠ Action.buy
    ∧ (executeJob ⟨-5, 5⟩
      { dataLen := 300, index := "t1", ticker := 10, low := 1, close := 9,
        ema12gtema26 := true, ema12gtema26co := true, ema12ltema26 := false,
        ema12ltema26co := false, macdgtsignal := true, macdltsignal := false,
        obv_pc := 2 }
      { action := Action.wait, last_action := LastAction.buy, last_buy := 10,
        last_df_index := "t0", buy_state := BuyState.empty, iterations := 0,
        x_since_buy := 0, x_since_sell := 0, buy_count := 0, sell_count := 0,
        failsafe := false }).state.action = Action.wait := by
  have h := C4_no_double_buy ⟨-5, 5⟩
    { dataLen := 300, index := "t1", ticker := 10, low := 1, close := 9,
      ema12gtema26 := true, ema12gtema26co := true, ema12ltema26 := false,
      ema12ltema26co := false, macdgtsignal := true, macdltsignal := false,
      obv_pc := 2 }
    { action := Action.wait, last_action := LastAction.buy, last_buy := 10,
      last_df_index := "t0", buy_state := BuyState.empty, iterations := 0,
      x_since_buy := 0, x_since_sell := 0, buy_count := 0, sell_count := 0,
      failsafe := false } rfl rfl
  exact ⟨h.1, h.2 rfl (by norm_num [failsafeCheck, resolvePrice])⟩

/-- C5: the failing input for the buy-streak claim.  On a fresh state
(`buy_state` is the initial empty string), a new-candle tick with the
bullish trend condition (`ema12gtema26 = True`) and no failsafe leaves
`x_since_buy` at 0: the `buy_state` gate of lines 686-690 first sets
`buy_state = "NO_BUY"` and then refuses the increment, while the
documented behaviour requires `x_since_buy = 1`.  The bearish branch and
the rest of the tick behave as documented. -/
theorem C5_buy_streak_gate_blocks_increment :
    (executeJob ⟨-5, 5⟩
      { dataLen := 300, index := "t1", ticker := 10, low := 1, close := 9,
        ema12gtema26 := true, ema12gtema26co := false, ema12ltema26 := false,
        ema12ltema26co := false, macdgtsignal := false, macdltsignal := false,
        obv_pc := 0 }
      { action := Action.wait, last_action := LastAction.none, last_buy := 0,
        last_df_index := "t0", buy_state := BuyState.empty, iterations := 0,
        x_since_buy := 0, x_since_sell := 0, buy_count := 0, sell_count := 0,
        failsafe := false }).triggered = false
    ∧ (executeJob ⟨-5, 5⟩
      { dataLen := 300, index := "t1", ticker := 10, low := 1, close := 9,
        ema12gtema26 := true, ema12gtema26co := false, ema12ltema26 := false,
        ema12ltema26co := false, macdgtsignal := false, macdltsignal := false,
        obv_pc := 0 }
      { action := Action.wait, last_action := LastAction.none, last_buy := 0,
        last_df_index := "t0", buy_state := BuyState.empty, iterations := 0,
        x_since_buy := 0, x_since_sell := 0, buy_count := 0, sell_count := 0,
        failsafe := false }).state.x_since_buy = 0
    ∧ (executeJob ⟨-5, 5⟩
      { dataLen := 300, index := "t1", ticker := 10, low := 1, close := 9,
        ema12gtema26 := true, ema12gtema26co := false, ema12ltema26 := false,
        ema12ltema26co := false, macdgtsignal := false, macdltsignal := false,
        obv_pc := 0 }
      { action := Action.wait, last_action := LastAction.none, last_buy := 0,
        last_df_index := "t0", buy_state := BuyState.empty, iterations := 0,
        x_since_buy := 0, x_since_sell := 0, buy_count := 0, sell_count := 0,
        failsafe := false }).state.last_df_index = "t1"
    ∧ (executeJob ⟨-5, 5⟩
      { dataLen := 300, index := "t1", ticker := 10, low := 1, close := 9,
        ema12gtema26 := true, ema12gtema26co := false, ema12ltema26 := false,
        ema12ltema26co := false, macdgtsignal := false, macdltsignal := false,
        obv_pc := 0 }
      { action := Action.wait, last_action := LastAction.none, last_buy := 0,
        last_df_index := "t0", buy_state := BuyState.empty, iterations := 0,
        x_since_buy := 0, x_since_sell := 0, buy_count := 0, sell_count := 0,
        failsafe := false }).state.buy_state = BuyState.noBuy := by
  norm_num [executeJob, decidePhase, bookkeepPhase, signalPhase, failsafePhase,
    streakPhase, actionPhase, lastActionPhase, resolvePrice, TickResult.state,
    TickResult.triggered, buySignal, sellSignal, rawBuyCond, rawSellCond,
    failsafeCheck]
  simp

/-- C7: on every new-candle tick whose finalized Action is BUY,
`x_since_sell` is reset to 0 and `last_buy` is set to the tick's
(resolved) current price; on every such tick whose finalized Action is
SELL, `x_since_buy` is reset to 0. -/
theorem C7_resets_on_buy_and_sell (cfg : BotConfig) (inp : TickInput)
    (s : BotState) (h300 : inp.dataLen = 300)
    (hnew : s.last_df_index ≠ inp.index) :
    ((executeJob cfg inp s).state.action = Action.buy →
      (executeJob cfg inp s).state.x_since_sell = 0
      ∧ (executeJob cfg inp s).state.last_buy
        = resolvePrice inp.ticker inp.low inp.close)
    ∧ ((executeJob cfg inp s).state.action = Action.sell →
      (executeJob cfg inp s).state.x_since_buy = 0) := by
  rw [executeJob_eq_new cfg inp s h300 hnew]
  simp only [TickResult.state]
  constructor
  · intro ha
    have hD : (decidePhase cfg inp (resolvePrice inp.ticker inp.low inp.close)
        { s with iterations := s.iterations + 1 }).action = Action.buy := by
      rw [← bookkeepPhase_action inp (resolvePrice inp.ticker inp.low inp.close)]
      exact ha
    obtain ⟨h1, h2, _⟩ := bookkeepPhase_of_buy inp
      (resolvePrice inp.ticker inp.low inp.close) _ hD
    exact ⟨h1, h2⟩
  · intro ha
    have hD : (decidePhase cfg inp (resolvePrice inp.ticker inp.low inp.close)
        { s with iterations := s.iterations + 1 }).action = Action.sell := by
      rw [← bookkeepPhase_action inp (resolvePrice inp.ticker inp.low inp.close)]
      exact ha
    exact (bookkeepPhase_of_sell inp
      (resolvePrice inp.ticker inp.low inp.close) _ hD).1

/-- C7, witness: a concrete buy tick resets `x_since_sell` and records
the price. -/
theorem C7_resets_on_buy_and_sell_witness :
    (executeJob ⟨-5, 5⟩
      { dataLen := 300, index := "t1", ticker := 10, low := 1, close := 9,
        ema12gtema26 := true, ema12gtema26co := true, ema12ltema26 := false,
        ema12ltema26co := false, macdgtsignal := true, macdltsignal := false,
        obv_pc := 2 }
      { action := Action.wait, last_action := LastAction.none, last_buy := 0,
        last_df_index := "t0", buy_state := BuyState.empty, iterations := 0,
        x_since_buy := 0, x_since_sell := 3, buy_count := 0, sell_count := 0,
        failsafe := false }).state.x_since_sell = 0
    ∧ (executeJob ⟨-5, 5⟩
      { dataLen := 300, index := "t1", ticker := 10, low := 1, close := 9,
        ema12gtema26 := true, ema12gtema26co := true, ema12ltema26 := false,
        ema12ltema26co := false, macdgtsignal := true, macdltsignal := false,
        obv_pc := 2 }
      { action := Action.wait, last_action := LastAction.none, last_buy := 0,
        last_df_index := "t0", buy_state := BuyState.empty, iterations := 0,
        x_since_buy := 0, x_since_sell := 3, buy_count := 0, sell_count := 0,
        failsafe := false }).state.last_buy = 10 := by
  have h := C7_resets_on_buy_and_sell ⟨-5, 5⟩
    { dataLen := 300, index := "t1", ticker := 10, low := 1, close := 9,
      ema12gtema26 := true, ema12gtema26co := true, ema12ltema26 := false,
      ema12ltema26co := false, macdgtsignal := true, macdltsignal := false,
      obv_pc := 2 }
    { action := Action.wait, last_action := LastAction.none, last_buy := 0,
      last_df_index := "t0", buy_state := BuyState.empty, iterations := 0,
      x_since_buy := 0, x_since_sell := 3, buy_count := 0, sell_count := 0,
      failsafe := false } rfl (by decide)
  have ha : (executeJob ⟨-5, 5⟩
      { dataLen := 300, index := "t1", ticker := 10, low := 1, close := 9,
        ema12gtema26 := true, ema12gtema26co := true, ema12ltema26 := false,
        ema12ltema26co := false, macdgtsignal := true, macdltsignal := false,
        obv_pc := 2 }
      { action := Action.wait, last_action := LastAction.none, last_buy := 0,
        last_df_index := "t0", buy_state := BuyState.empty, iterations := 0,
        x_since_buy := 0, x_since_sell := 3, buy_count := 0, sell_count := 0,
        failsafe := false }).state.action = Action.buy := by
    norm_num [executeJob, decidePhase, bookkeepPhase, signalPhase, failsafePhase,
      streakPhase, actionPhase, lastActionPhase, resolvePrice, TickResult.state,
      buySignal, sellSignal, rawBuyCond, rawSellCond, failsafeCheck]
    simp
  obtain ⟨h1, h2⟩ := h.1 ha
  exact ⟨h1, h2⟩

/-- C8: after every new-candle tick, `last_action` equals the tick's
Action when that Action is BUY or SELL, and is exactly the prior
`last_action` when the Action is WAIT. -/
theorem C8_last_action_update (cfg : BotConfig) (inp : TickInput)
    (s : BotState) (h300 : inp.dataLen = 300)
    (hnew : s.last_df_index ≠ inp.index) :
    ((executeJob cfg inp s).state.action = Action.buy →
      (executeJob cfg inp s).state.last_action = LastAction.buy)
    ∧ ((executeJob cfg inp s).state.action = Action.sell →
      (executeJob cfg inp s).state.last_action = LastAction.sell)
    ∧ ((executeJob cfg inp s).state.action = Action.wait →
      (executeJob cfg inp s).state.last_action = s.last_action) := by
  rw [executeJob_eq_new cfg inp s h300 hnew]
  simp only [TickResult.state]
  refine ⟨?_, ?_, ?_⟩
  · intro ha
    have hD : (decidePhase cfg inp (resolvePrice inp.ticker inp.low inp.close)
        { s with iterations := s.iterations + 1 }).action = Action.buy := by
      rw [← bookkeepPhase_action inp (resolvePrice inp.ticker inp.low inp.close)]
      exact ha
    exact (bookkeepPhase_of_buy inp
      (resolvePrice inp.ticker inp.low inp.close) _ hD).2.2
  · intro ha
    have hD : (decidePhase cfg inp (resolvePrice inp.ticker inp.low inp.close)
        { s with iterations := s.iterations + 1 }).action = Action.sell := by
      rw [← bookkeepPhase_action inp (resolvePrice inp.ticker inp.low inp.close)]
      exact ha
    exact (bookkeepPhase_of_sell inp
      (resolvePrice inp.ticker inp.low inp.close) _ hD).2
  · intro ha
    have hD : (decidePhase cfg inp (resolvePrice inp.ticker inp.low inp.close)
        { s with iterations := s.iterations + 1 }).action = Action.wait := by
      rw [← bookkeepPhase_action inp (resolvePrice inp.ticker inp.low inp.close)]
      exact ha
    have hw := bookkeepPhase_of_wait inp
      (resolvePrice inp.ticker inp.low inp.close) _ hD
    rw [hw, decidePhase_last_action]

/-- C8, witness: a WAIT tick leaves `last_action` at its prior value. -/
theorem C8_last_action_update_witness :
    (executeJob ⟨-5, 5⟩
      { dataLen := 300, index := "t1", ticker := 10, low := 1, close := 9,
        ema12gtema26 := false, ema12gtema26co := false, ema12ltema26 := false,
        ema12ltema26co := false, macdgtsignal := false, macdltsignal := false,
        obv_pc := 0 }
      { action := Action.wait, last_action := LastAction.sell, last_buy := 7,
        last_df_index := "t0", buy_state := BuyState.normal, iterations := 4,
        x_since_buy := 1, x_since_sell := 2, buy_count := 1, sell_count := 1,
        failsafe := false }).state.last_action = LastAction.sell := by
  have h := C8_last_action_update ⟨-5, 5⟩
    { dataLen := 300, index := "t1", ticker := 10, low := 1, close := 9,
      ema12gtema26 := false, ema12gtema26co := false, ema12ltema26 := false,
      ema12ltema26co := false, macdgtsignal := false, macdltsignal := false,
      obv_pc := 0 }
    { action := Action.wait, last_action := LastAction.sell, last_buy := 7,
      last_df_index := "t0", buy_state := BuyState.normal, iterations := 4,
      x_since_buy := 1, x_since_sell := 2, buy_count := 1, sell_count := 1,
      failsafe := false } rfl (by decide)
  exact h.2.2 (by
    norm_num [executeJob, decidePhase, bookkeepPhase, signalPhase, failsafePhase,
      streakPhase, actionPhase, lastActionPhase, resolvePrice, TickResult.state,
      buySignal, sellSignal, rawBuyCond, rawSellCond, failsafeCheck]
    simp)

/-- C9 counterexample: when the window-tail close is itself 0 (the data
model only requires candle prices to be non-negative), the substituted
price is 0 and a price of exactly 0 does reach the failsafe percentage
computation — here it even fires the stop-loss, since
`(0/100 - 1) * 100 = -100 < -5`. -/
theorem C9_counterexample :
    resolvePrice 0 0 0 = 0
    ∧ (executeJob ⟨-5, 5⟩
      { dataLen := 300, index := "t1", ticker := 0, low := 0, close := 0,
        ema12gtema26 := false, ema12gtema26co := false, ema12ltema26 := false,
        ema12ltema26co := false, macdgtsignal := false, macdltsignal := false,
        obv_pc := 0 }
      { action := Action.wait, last_action := LastAction.buy, last_buy := 100,
        last_df_index := "t0", buy_state := BuyState.empty, iterations := 0,
        x_since_buy := 0, x_since_sell := 0, buy_count := 0, sell_count := 0,
        failsafe := false }).triggered = true := by
  constructor
  · norm_num [resolvePrice]
  · norm_num [executeJob, decidePhase, bookkeepPhase, signalPhase, failsafePhase,
      streakPhase, actionPhase, lastActionPhase, resolvePrice, TickResult.state,
      TickResult.triggered, buySignal, sellSignal, rawBuyCond, rawSellCond,
      failsafeCheck]
    simp

/-- C9 (amended): when the price source reports a price that is 0 or
negative and the tail candle is well formed (its low is non-negative),
the engine substitutes the window-tail close before any rule evaluates
and the tick completes rather than failing; provided the tail close is
itself positive, the price that reaches the decision rules — and hence
the failsafe percentage computation — is positive, so a price of exactly
0 never reaches it. -/
theorem C9_zero_price_substitution (cfg : BotConfig) (inp : TickInput)
    (s : BotState) (h300 : inp.dataLen = 300)
    (hlow : 0 ≤ inp.low) (hclose : 0 < inp.close) :
    (inp.ticker ≤ 0 → resolvePrice inp.ticker inp.low inp.close = inp.close)
    ∧ 0 < resolvePrice inp.ticker inp.low inp.close
    ∧ (executeJob cfg inp s).isOk = true := by
  refine ⟨?_, ?_, executeJob_isOk cfg inp s h300⟩
  · intro ht
    unfold resolvePrice
    rcases lt_or_eq_of_le ht with h | h
    · rw [if_pos (Or.inl (lt_of_lt_of_le h hlow))]
    · rw [if_pos (Or.inr h)]
  · unfold resolvePrice
    split_ifs with h
    · exact hclose
    · push_neg at h
      exact lt_of_le_of_ne (le_trans hlow h.1) (Ne.symm h.2)

/-- C9 (amended), witness: a reported price of 0 against a tail candle
with low 1 and close 9. -/
theorem C9_zero_price_substitution_witness :
    resolvePrice 0 1 9 = 9
    ∧ (0 : ℚ) < resolvePrice 0 1 9
    ∧ (executeJob ⟨-5, 5⟩
      { dataLen := 300, index := "t1", ticker := 0, low := 1, close := 9,
        ema12gtema26 := false, ema12gtema26co := false, ema12ltema26 := false,
        ema12ltema26co := false, macdgtsignal := false, macdltsignal := false,
        obv_pc := 0 }
      { action := Action.wait, last_action := LastAction.none, last_buy := 0,
        last_df_index := "t0", buy_state := BuyState.empty, iterations := 0,
        x_since_buy := 0, x_since_sell := 0, buy_count := 0, sell_count := 0,
        failsafe := false }).isOk = true := by
  have h := C9_zero_price_substitution ⟨-5, 5⟩
    { dataLen := 300, index := "t1", ticker := 0, low := 1, close := 9,
      ema12gtema26 := false, ema12gtema26co := false, ema12ltema26 := false,
      ema12ltema26co := false, macdgtsignal := false, macdltsignal := false,
      obv_pc := 0 }
    { action := Action.wait, last_action := LastAction.none, last_buy := 0,
      last_df_index := "t0", buy_state := BuyState.empty, iterations := 0,
      x_since_buy := 0, x_since_sell := 0, buy_count := 0, sell_count := 0,
      failsafe := false } rfl (by norm_num) (by norm_num)
  exact ⟨h.1 le_rfl, h.2.1, h.2.2⟩

/-- C10: for every keyring state, key name and credential field, the
getter errors exactly when the stored value is missing or empty and an
`ok` result is never the empty string; and replacing a stored credential
with the empty string always errors, because the post-write verification
of `_set_pw` rejects any falsy stored value even though the underlying
`set_password` call stored it. -/
theorem C10_credential_guards (kr : Keyring) (a : ApiKey) (f : CredField) :
    ((get_password kr (a.credUser f) = Option.none
        ∨ get_password kr (a.credUser f) = Option.some "") →
      a.getCred kr f = Except.error "Missing key.")
    ∧ (∀ v : String, a.getCred kr f = Except.ok v → v ≠ "")
    ∧ a.replaceCred kr f "" = Except.error "Failure to set keys."
    ∧ get_password (set_password kr (a.credUser f) "") (a.credUser f)
        = Option.some "" := by
  refine ⟨?_, ?_, ?_, ?_⟩
  · intro h
    rcases h with h | h
    · simp [ApiKey.getCred, get_pw, h]
    · simp [ApiKey.getCred, get_pw, h]
  · intro v hv
    rcases hgp : get_password kr (a.credUser f) with _ | pw
    · simp [ApiKey.getCred, get_pw, hgp] at hv
    · by_cases hpw : pw = ""
      · simp [ApiKey.getCred, get_pw, hgp, hpw] at hv
      · simp [ApiKey.getCred, get_pw, hgp, hpw] at hv
        rw [← hv]
        exact hpw
  · unfold ApiKey.replaceCred set_pw
    simp [set_password, get_password]
  · simp [set_password, get_password]

/-- C10, witness: an empty keyring errors on the getter, and replacing
with the empty string errors after storing it. -/
theorem C10_credential_guards_witness :
    ApiKey.getCred ⟨"bot"⟩ (fun _ => Option.none) CredField.key
      = Except.error "Missing key."
    ∧ ApiKey.replaceCred ⟨"bot"⟩ (fun _ => Option.none) CredField.key ""
      = Except.error "Failure to set keys." := by
  have h := C10_credential_guards (fun _ => Option.none) ⟨"bot"⟩ CredField.key
  exact ⟨h.1 (Or.inl rfl), h.2.2.1⟩

end PCB
